import Mathlib

/-!
Verification development for the turn-based conversational orchestration
engine of the rag-chatbot server (server/app/agents).  The Python sources
are shallowly embedded: pure helpers become Lean functions over List Char
and String, the per-turn budget and the LRU cache become explicit state
passing, and the backend model call of each node is an explicit
Except-valued argument so that theorems can quantify over backend
behaviour.  Machine integers are modelled by Int (Python ints are
unbounded); wall-clock timestamps and latency fields are elided.
-/

namespace RagChatbot

/- ---------------------------------------------------------------- -/
/- Python string primitives (ASCII fragment), over List Char.        -/
/- ---------------------------------------------------------------- -/

/-- Whitespace set of Python str.strip and str.split (ASCII). -/
def isPySpace (c : Char) : Bool :=
  c == ' ' || c == '\t' || c == '\n' || c == '\r' || c == '\x0b' || c == '\x0c'

/-- Characters kept by the regex class [a-z0-9\s]. -/
def isKeptChar (c : Char) : Bool :=
  ('a' ≤ c && c ≤ 'z') || ('0' ≤ c && c ≤ '9') || isPySpace c

/-- Python str.strip on a character list. -/
def trimChars (l : List Char) : List Char :=
  ((l.dropWhile isPySpace).reverse.dropWhile isPySpace).reverse

/-- Python str.strip. -/
def pyStrip (s : String) : String :=
  String.mk (trimChars s.data)

/-- Python str.lower (ASCII fragment). -/
def pyLower (s : String) : String :=
  String.mk (s.data.map Char.toLower)

/-- Python str.split with no separator: split on whitespace runs. -/
def splitWsChars : List Char → List Char → List String
  | [], acc => if acc = [] then [] else [String.mk acc.reverse]
  | c :: rest, acc =>
    if isPySpace c then
      if acc = [] then splitWsChars rest []
      else String.mk acc.reverse :: splitWsChars rest []
    else splitWsChars rest (c :: acc)

/-- Python str.split() on whitespace, empty pieces discarded. -/
def pySplitWs (s : String) : List String :=
  splitWsChars s.data []

/-- Python truthiness of an optional string: None and the empty string
are falsy.  Models expressions of the form a or b. -/
def pyOrStr (a : Option String) (b : String) : String :=
  match a with
  | none => b
  | some s => if s = "" then b else s

/-- Python " ".join / ", ".join. -/
def joinWith (sep : String) : List String → String
  | [] => ""
  | [s] => s
  | s :: rest => s ++ sep ++ joinWith sep rest

/- ---------------------------------------------------------------- -/
/- PlannerBudget (agents/planner.py, class PlannerBudget).           -/
/- ---------------------------------------------------------------- -/

/-- Per-turn model-call budget; fields are Python ints. -/
structure PlannerBudget where
  max_calls : Int
  calls_used : Int := 0
deriving Repr, DecidableEq

/-- PlannerBudget.consume: returns False and leaves the state unchanged
once calls_used has reached max_calls, otherwise increments calls_used
and returns True. -/
def consume (b : PlannerBudget) : Bool × PlannerBudget :=
  if b.max_calls ≤ b.calls_used then (false, b)
  else (true, { b with calls_used := b.calls_used + 1 })

/-- PlannerBudget.remaining: max_calls - calls_used clamped at zero. -/
def budgetRemaining (b : PlannerBudget) : Int :=
  let remaining := b.max_calls - b.calls_used
  if 0 < remaining then remaining else 0

/-- Iterated consume, modelling a finite sequence of consume() calls. -/
def consumeN : Nat → PlannerBudget → PlannerBudget
  | 0, b => b
  | n + 1, b => consumeN n (consume b).2

/-- The budget state after n consume() calls on a fresh budget. -/
def budgetAfter (M : Int) (n : Nat) : PlannerBudget :=
  consumeN n { max_calls := M, calls_used := 0 }

/- ---------------------------------------------------------------- -/
/- EventBroker backlog (agents/events.py).                           -/
/- ---------------------------------------------------------------- -/

/-- Append on a deque with a maxlen bound: the oldest entries are
discarded from the front once the bound is exceeded. -/
def dequePush {α : Type} (cap : Nat) (l : List α) (e : α) : List α :=
  (l ++ [e]).drop ((l ++ [e]).length - cap)

/-- EventBroker.publish restricted to the backlog of one session with
no registered listener: append to the bounded deque. -/
def publishAll {α : Type} (cap : Nat) (backlog : List α) (es : List α) : List α :=
  es.foldl (dequePush cap) backlog

/-- EventBroker.next_event on a non-empty backlog: pop and return the
oldest queued event. -/
def nextEvent {α : Type} (backlog : List α) : Option α × List α :=
  match backlog with
  | [] => (none, [])
  | e :: rest => (some e, rest)

/-- The sequence of events a single consumer observes by calling
next_event n times. -/
def drainN {α : Type} : Nat → List α → List α
  | 0, _ => []
  | n + 1, backlog =>
    match nextEvent backlog with
    | (some e, rest) => e :: drainN n rest
    | (none, _) => []

/- ---------------------------------------------------------------- -/
/- Data model (agents/state.py, models/chat.py, planner enums).      -/
/- ---------------------------------------------------------------- -/

/-- Intent enum of agents/planner.py. -/
inductive Intent where
  | calc
  | products
  | outlets
  | chitchat
  | unknown
deriving Repr, DecidableEq

/-- Intent member values (the str mixin of the enum). -/
def intentValue : Intent → String
  | Intent.calc => "calc"
  | Intent.products => "products"
  | Intent.outlets => "outlets"
  | Intent.chitchat => "chitchat"
  | Intent.unknown => "unknown"

/-- Intent(s): the enum constructor, None when s is not a member value
(in which case Python raises ValueError). -/
def intentFromString : String → Option Intent
  | "calc" => some Intent.calc
  | "products" => some Intent.products
  | "outlets" => some Intent.outlets
  | "chitchat" => some Intent.chitchat
  | "unknown" => some Intent.unknown
  | _ => none

/-- Decision enum of agents/planner.py. -/
inductive Decision where
  | ask_follow_up
  | call_calc
  | call_products
  | call_outlets
  | respond_smalltalk
deriving Repr, DecidableEq

/-- Decision member values (the str mixin of the enum). -/
def decisionValue : Decision → String
  | Decision.ask_follow_up => "ask_follow_up"
  | Decision.call_calc => "call_calc"
  | Decision.call_products => "call_products"
  | Decision.call_outlets => "call_outlets"
  | Decision.respond_smalltalk => "respond_smalltalk"

/-- Decision(s): the enum constructor, None when s is not a member
value (in which case Python raises ValueError). -/
def decisionFromString : String → Option Decision
  | "ask_follow_up" => some Decision.ask_follow_up
  | "call_calc" => some Decision.call_calc
  | "call_products" => some Decision.call_products
  | "call_outlets" => some Decision.call_outlets
  | "respond_smalltalk" => some Decision.respond_smalltalk
  | _ => none

/-- models/chat.py ChatMessage: a role-tagged message. -/
structure ChatMessage where
  role : String
  content : String
deriving Repr, DecidableEq

/-- agents/state.py SlotState: optional extracted slots. -/
structure SlotState where
  calcExpression : Option String := none
  outletArea : Option String := none
  outletName : Option String := none
  productQuery : Option String := none
deriving Repr, DecidableEq

/-- One hit of a catalog-search result, restricted to the fields the
planner reads (title). -/
structure ProductHit where
  title : String
deriving Repr, DecidableEq

/-- One row of an outlets query result, restricted to the keys the
planner reads; each access uses dict.get so every field is optional. -/
structure OutletRow where
  name : Option String := none
  city : Option String := none
  open_time : Option String := none
  openTime : Option String := none
  close_time : Option String := none
  closeTime : Option String := none
deriving Repr, DecidableEq

/-- The raw structured payload stored under tools.lastResult, by tool.
The calc numeric result is kept as its rendered text (numeric
formatting is outside the embedded fragment); fields of the service
results that no planner code reads are elided. -/
inductive ToolResultPayload where
  | calc (expression : String) (resultText : String)
  | products (topK : List ProductHit) (summary : Option String)
  | outlets (query : String) (rows : List OutletRow)
deriving Repr, DecidableEq

/-- agents/state.py ToolState. -/
structure ToolState where
  lastTool : Option String := none
  lastResult : Option ToolResultPayload := none
deriving Repr, DecidableEq

/-- agents/state.py ErrorState. -/
structure ErrorState where
  type : String
  message : String
deriving Repr, DecidableEq

/-- The metadata dict of ChatState, restricted to the keys the planner
writes and reads: outletsContext.lastRawQuestion and
outletsContext.lastEnrichedQuery (both absent when the outletsContext
key is missing) and productAggregation. -/
structure MetaState where
  outletsLastRawQuestion : Option String := none
  outletsLastEnrichedQuery : Option String := none
  productAggregation : Option Bool := none
deriving Repr, DecidableEq

/-- agents/state.py ChatState. -/
structure ChatState where
  sessionId : String
  messages : List ChatMessage := []
  intent : Option String := none
  slots : SlotState := {}
  tools : ToolState := {}
  error : Option ErrorState := none
  metadata : MetaState := {}
deriving Repr, DecidableEq

/-- messages[-1].content, with the empty string standing for the
IndexError Python raises on an empty list (planner states always carry
at least one message). -/
def latestContent (st : ChatState) : String :=
  match st.messages.getLast? with
  | some m => m.content
  | none => ""

/- ---------------------------------------------------------------- -/
/- Product-query guardrail (planner.py token sets and                -/
/- ChatPlanner._needs_product_clarification).                        -/
/- ---------------------------------------------------------------- -/

/-- _PRODUCT_GENERIC_TOKENS. -/
def PRODUCT_GENERIC_TOKENS : List String :=
  ["drinkware", "product", "products", "info", "information", "details",
   "options", "option", "catalog", "catalogue", "recommendation",
   "recommendations", "show", "list", "anything", "something", "ideas",
   "suggestions", "suggestion"]

/-- _PRODUCT_DESCRIPTOR_HINTS. -/
def PRODUCT_DESCRIPTOR_HINTS : List String :=
  ["tumbler", "tumblers", "cup", "cups", "mug", "mugs", "bottle",
   "bottles", "glass", "steel", "ceramic", "insulated", "thermal",
   "travel", "kids", "gift", "blue", "black", "matte", "gradient",
   "limited", "series", "edition", "set", "bundle", "handle", "strap",
   "sleeve", "corak", "malaysia", "marble", "double", "wall", "vacuum"]

/-- _PRODUCT_COMPARATOR_HINTS. -/
def PRODUCT_COMPARATOR_HINTS : List String :=
  ["under", "below", "over", "above", "less", "more", "cheaper",
   "expensive", "between", "around", "budget", "price"]

/-- The bare catalog nouns of the single-token branch of
_needs_product_clarification. -/
def PRODUCT_BARE_NOUNS : List String :=
  ["drinkware", "product", "products", "catalog", "catalogue"]

/-- re.sub of the class [^a-z0-9\s] by a space, followed by strip, as
applied to the lowercased query. -/
def normalizeProductQuery (q : String) : String :=
  pyStrip (String.mk ((pyLower q).data.map
    (fun c => if isKeptChar c then c else ' ')))

/-- The whitespace tokens of the normalized query. -/
def productTokens (q : String) : List String :=
  pySplitWs (normalizeProductQuery q)

/-- ChatPlanner._needs_product_clarification. -/
def needsProductClarification (query : Option String) : Bool :=
  match query with
  | none => true
  | some q =>
    if q = "" then true
    else
      let normalized := normalizeProductQuery q
      if normalized = "" then true
      else
        let tokens := pySplitWs normalized
        if normalized.data.any Char.isDigit then false
        else if tokens.any (fun t => PRODUCT_COMPARATOR_HINTS.contains t) then false
        else if tokens.any (fun t => PRODUCT_DESCRIPTOR_HINTS.contains t) then false
        else if tokens.length = 1 then PRODUCT_BARE_NOUNS.contains (tokens.headD "")
        else if tokens.length ≤ 4 &&
            tokens.all (fun t => PRODUCT_GENERIC_TOKENS.contains t) then true
        else false

/-- The generic-query procedure exactly as the specification documents
it, for the refinement comparison with _needs_product_clarification:
after normalizing and tokenizing, a query containing a digit, a
comparator/price hint or a descriptor hint is non-generic; a
single-token query is generic only if the token is a bare catalog
noun; a 2-4 token query made entirely of generic filler tokens is
generic; every other shape is non-generic. -/
def genericQuerySpec (q : String) : Bool :=
  let normalized := normalizeProductQuery q
  let tokens := pySplitWs normalized
  if normalized.data.any Char.isDigit then false
  else if tokens.any (fun t => PRODUCT_COMPARATOR_HINTS.contains t) then false
  else if tokens.any (fun t => PRODUCT_DESCRIPTOR_HINTS.contains t) then false
  else if tokens.length = 1 then PRODUCT_BARE_NOUNS.contains (tokens.headD "")
  else if 2 ≤ tokens.length && tokens.length ≤ 4 &&
      tokens.all (fun t => PRODUCT_GENERIC_TOKENS.contains t) then true
  else false

/- ---------------------------------------------------------------- -/
/- Aggregation heuristic                                             -/
/- (ChatPlanner._is_product_aggregation_query).                      -/
/- ---------------------------------------------------------------- -/

/-- Word characters of the regex \b boundary ([a-zA-Z0-9_]). -/
def isWordChar (c : Char) : Bool :=
  c.isAlphanum || c == '_'

/-- Match one literal word at the head of the text. -/
def matchWordHere : List Char → List Char → Option (List Char)
  | cs, [] => some cs
  | [], _ :: _ => none
  | c :: cs, w :: ws => if c = w then matchWordHere cs ws else none

/-- Match the words of a phrase separated by \s+ at the head of the
text, with a trailing \b boundary. -/
def matchPhraseHere : List Char → List (List Char) → Bool
  | _, [] => true
  | cs, [w] =>
    match matchWordHere cs w with
    | none => false
    | some rest =>
      match rest with
      | [] => true
      | c :: _ => !isWordChar c
  | cs, w :: ws =>
    match matchWordHere cs w with
    | none => false
    | some rest =>
      let spaced := rest.dropWhile isPySpace
      decide (spaced.length < rest.length) && matchPhraseHere spaced ws

/-- re.search of a \b-delimited phrase: either the phrase starts at
the very beginning of the text, or it starts right after a non-word
character. -/
def searchPhraseBounded (text : List Char) (phrase : List (List Char)) : Bool :=
  matchPhraseHere text phrase || searchPhraseTail text phrase
where
  searchPhraseTail : List Char → List (List Char) → Bool
    | [], _ => false
    | c :: cs, p =>
      (!isWordChar c && matchPhraseHere cs p) || searchPhraseTail cs p

/-- The aggregation regex patterns of _is_product_aggregation_query,
as word phrases. -/
def aggregationPhrases : List (List (List Char)) :=
  [[ "how".data, "many".data ], [ "number".data, "of".data ],
   [ "count".data ], [ "average".data ], [ "avg".data ],
   [ "minimum".data ], [ "maximum".data ], [ "min".data ],
   [ "max".data ], [ "most".data ], [ "least".data ]]

/-- ChatPlanner._is_product_aggregation_query. -/
def isProductAggregationQuery (message : Option String) : Bool :=
  match message with
  | none => false
  | some m =>
    if m = "" then false
    else
      let text := (pyLower m).data
      aggregationPhrases.any (fun p => searchPhraseBounded text p)

/- ---------------------------------------------------------------- -/
/- Events (agents/planner.py _publish_event / _emit_llm_call).       -/
/- ---------------------------------------------------------------- -/

/-- Prompt identifiers of agents/prompts.py. -/
def INTENT_PROMPT_ID : String := "planner.intent.v1"

def SLOT_PROMPT_ID : String := "planner.slots.v1"

def DECISION_PROMPT_ID : String := "planner.decision.v1"

def SYNTHESIS_PROMPT_ID : String := "planner.synthesis.v1"

def FOLLOW_UP_PROMPT_ID : String := "planner.follow_up.v1"

/-- Payload of an llm_call event as built by _emit_llm_call; the
latency field and the success extras are telemetry and are elided. -/
structure LlmCallData where
  promptId : String
  status : String
  callsUsed : Int
  maxCalls : Int
  remainingCalls : Int
  reason : Option String := none
  errorText : Option String := none
deriving Repr, DecidableEq

/-- One event published for a session, by type. -/
inductive PlannerEvent where
  | node_start (node : String)
  | node_end (node : String)
  | decision (node : String) (value : String)
  | llm_call (node : String) (data : LlmCallData)
deriving Repr, DecidableEq

/-- _emit_llm_call: publish an llm_call event carrying the budget
counters at emission time. -/
def emitLlmCall (node promptId status : String) (b : PlannerBudget)
    (reason errorText : Option String) : PlannerEvent :=
  PlannerEvent.llm_call node
    { promptId := promptId, status := status, callsUsed := b.calls_used,
      maxCalls := b.max_calls, remainingCalls := budgetRemaining b,
      reason := reason, errorText := errorText }

/- ---------------------------------------------------------------- -/
/- Model-backed helper steps (the _*_with_llm methods).  The actual  -/
/- backend call is an Except-valued argument: ok carries the raw     -/
/- structured value the invoker would return, error the exception    -/
/- text; prompt rendering only feeds that backend and is elided.     -/
/- ---------------------------------------------------------------- -/

/-- Result of one model-backed helper: the optional value, the budget
after the step, the llm_call events emitted, and whether the backend
was actually invoked. -/
structure LlmStep (α : Type) where
  result : Option α
  budget : PlannerBudget
  events : List PlannerEvent
  backendCalled : Bool
deriving Repr, DecidableEq

/-- ChatPlanner._classify_intent_with_llm.  The backend yields the
intent field of an IntentResult; a value outside the closed intent set
raises inside the try block and takes the error path. -/
def classifyIntentWithLlm (b : PlannerBudget) (backend : Except String String) :
    LlmStep Intent :=
  match consume b with
  | (false, b') =>
    { result := none, budget := b',
      events := [emitLlmCall "classify_intent" INTENT_PROMPT_ID "skipped" b'
        (some "budget_exhausted") none],
      backendCalled := false }
  | (true, b') =>
    match backend with
    | Except.error exc =>
      { result := none, budget := b',
        events := [emitLlmCall "classify_intent" INTENT_PROMPT_ID "error" b'
          none (some exc)],
        backendCalled := true }
    | Except.ok intentStr =>
      match intentFromString intentStr with
      | none =>
        { result := none, budget := b',
          events := [emitLlmCall "classify_intent" INTENT_PROMPT_ID "error" b'
            none (some intentStr)],
          backendCalled := true }
      | some i =>
        { result := some i, budget := b',
          events := [emitLlmCall "classify_intent" INTENT_PROMPT_ID "success" b'
            none none],
          backendCalled := true }

/-- All slot fields absent (model_dump(exclude_none=True) is empty). -/
def slotStateIsEmpty (s : SlotState) : Bool :=
  s = {}

/-- ChatPlanner._extract_slots_with_llm.  The backend yields a
SlotResult already normalized by its validators. -/
def extractSlotsWithLlm (b : PlannerBudget) (backend : Except String SlotState) :
    LlmStep SlotState :=
  match consume b with
  | (false, b') =>
    { result := none, budget := b',
      events := [emitLlmCall "extract_slots" SLOT_PROMPT_ID "skipped" b'
        (some "budget_exhausted") none],
      backendCalled := false }
  | (true, b') =>
    match backend with
    | Except.error exc =>
      { result := none, budget := b',
        events := [emitLlmCall "extract_slots" SLOT_PROMPT_ID "error" b'
          none (some exc)],
        backendCalled := true }
    | Except.ok r =>
      { result := if slotStateIsEmpty r then none else some r, budget := b',
        events := [emitLlmCall "extract_slots" SLOT_PROMPT_ID "success" b'
          none none],
        backendCalled := true }

/-- ChatPlanner._decide_action_with_llm.  The backend yields the
decision field of a DecisionResult. -/
def decideActionWithLlm (b : PlannerBudget) (backend : Except String String) :
    LlmStep Decision :=
  match consume b with
  | (false, b') =>
    { result := none, budget := b',
      events := [emitLlmCall "decide_action" DECISION_PROMPT_ID "skipped" b'
        (some "budget_exhausted") none],
      backendCalled := false }
  | (true, b') =>
    match backend with
    | Except.error exc =>
      { result := none, budget := b',
        events := [emitLlmCall "decide_action" DECISION_PROMPT_ID "error" b'
          none (some exc)],
        backendCalled := true }
    | Except.ok decisionStr =>
      match decisionFromString decisionStr with
      | none =>
        { result := none, budget := b',
          events := [emitLlmCall "decide_action" DECISION_PROMPT_ID "error" b'
            none (some decisionStr)],
          backendCalled := true }
      | some d =>
        { result := some d, budget := b',
          events := [emitLlmCall "decide_action" DECISION_PROMPT_ID "success" b'
            none none],
          backendCalled := true }

/-- ChatPlanner._ask_follow_up_with_llm.  The backend yields the
question field of a FollowUpResult. -/
def askFollowUpWithLlm (b : PlannerBudget) (backend : Except String String) :
    LlmStep String :=
  match consume b with
  | (false, b') =>
    { result := none, budget := b',
      events := [emitLlmCall "ask_follow_up" FOLLOW_UP_PROMPT_ID "skipped" b'
        (some "budget_exhausted") none],
      backendCalled := false }
  | (true, b') =>
    match backend with
    | Except.error exc =>
      { result := none, budget := b',
        events := [emitLlmCall "ask_follow_up" FOLLOW_UP_PROMPT_ID "error" b'
          none (some exc)],
        backendCalled := true }
    | Except.ok rawQuestion =>
      let question := pyStrip rawQuestion
      if question = "" then
        { result := none, budget := b',
          events := [emitLlmCall "ask_follow_up" FOLLOW_UP_PROMPT_ID "error" b'
            none (some "empty_follow_up")],
          backendCalled := true }
      else
        { result := some question, budget := b',
          events := [emitLlmCall "ask_follow_up" FOLLOW_UP_PROMPT_ID "success" b'
            none none],
          backendCalled := true }

/-- agents/schemas.py SynthesisResult, post-validation. -/
structure SynthesisResult where
  message : String
  followUp : Option String := none
deriving Repr, DecidableEq

/-- ChatPlanner._synthesize_with_llm. -/
def synthesizeWithLlm (b : PlannerBudget) (backend : Except String SynthesisResult) :
    LlmStep SynthesisResult :=
  match consume b with
  | (false, b') =>
    { result := none, budget := b',
      events := [emitLlmCall "synthesize" SYNTHESIS_PROMPT_ID "skipped" b'
        (some "budget_exhausted") none],
      backendCalled := false }
  | (true, b') =>
    match backend with
    | Except.error exc =>
      { result := none, budget := b',
        events := [emitLlmCall "synthesize" SYNTHESIS_PROMPT_ID "error" b'
          none (some exc)],
        backendCalled := true }
    | Except.ok r =>
      { result := some r, budget := b',
        events := [emitLlmCall "synthesize" SYNTHESIS_PROMPT_ID "success" b'
          none none],
        backendCalled := true }

/- ---------------------------------------------------------------- -/
/- Tool actions (models/chat.py).                                    -/
/- ---------------------------------------------------------------- -/

/-- models/chat.py ToolActionType. -/
inductive ToolActionType where
  | decision
  | tool_call
  | tool_result
deriving Repr, DecidableEq

/-- models/chat.py ToolStatus. -/
inductive ToolStatus where
  | success
  | error
deriving Repr, DecidableEq

/-- models/chat.py ToolAction, restricted to the fields the planner
sets; of the data payload only the error text of failure actions is
kept (success data duplicates the stored tool result). -/
structure ToolAction where
  type : ToolActionType
  tool : Option String := none
  status : Option ToolStatus := none
  message : Option String := none
  dataError : Option String := none
deriving Repr, DecidableEq

/- ---------------------------------------------------------------- -/
/- Rule-based fallback message                                       -/
/- (ChatPlanner._rule_based_message).                                -/
/- ---------------------------------------------------------------- -/

/-- The calculator line of _rule_based_message. -/
def calcResultMessage (expression resultText : String) : String :=
  "The result for `" ++ expression ++ "` is **" ++ resultText ++ "**."

/-- The product line of _rule_based_message for a non-empty topK. -/
def productsFoundMessage (titles : String) (summary : Option String) : String :=
  let suffix :=
    match summary with
    | none => ""
    | some s => if s = "" then "" else " " ++ s
  "I found these drinkware options: " ++ titles ++ "." ++ suffix

/-- The outlets line of _rule_based_message for a non-empty rows
list. -/
def outletsFoundMessage (first : OutletRow) : String :=
  let name := pyOrStr first.name "That outlet"
  let openT := pyOrStr first.open_time (pyOrStr first.openTime "")
  let closeT := pyOrStr first.close_time (pyOrStr first.closeTime "")
  let hoursText :=
    if openT ≠ "" ∧ closeT ≠ "" then
      " They open at " ++ openT ++ " and close at " ++ closeT ++ "."
    else ""
  name ++ " is available." ++ hoursText

/-- The error line of _rule_based_message. -/
def errorFallbackMessage (e : ErrorState) : String :=
  "I\x27m the ZUS Coffee assistant for calculator checks, drinkware finds, " ++
    "and outlet guidance, but something went wrong (" ++ e.type ++ "). " ++
    e.message ++ " Please try again or clarify your request."

/-- The capability-reminder line of _rule_based_message. -/
def defaultReminderMessage : String :=
  "I\x27m the ZUS Coffee assistant who can use a calculator, suggest " ++
    "drinkware, and locate outlets. Could you share a bit more so I can " ++
    "point you to the right tool?"

/-- ChatPlanner._rule_based_message.  The tool branches require a
truthy lastResult whose shape matches the named tool (the shapes the
tool nodes store). -/
def ruleBasedMessage (st : ChatState) : String :=
  match st.tools.lastTool, st.tools.lastResult with
  | some "calc", some (ToolResultPayload.calc e r) => calcResultMessage e r
  | some "products", some (ToolResultPayload.products topK summary) =>
    (match topK with
     | [] => "I couldn\x27t find matching drinkware right now."
     | _ :: _ =>
       productsFoundMessage
         (joinWith ", " ((topK.take 3).map (fun h => h.title))) summary)
  | some "outlets", some (ToolResultPayload.outlets _ rows) =>
    (match rows with
     | [] => "I didn\x27t find matching outlets."
     | first :: _ => outletsFoundMessage first)
  | _, _ =>
    match st.error with
    | some e => errorFallbackMessage e
    | none => defaultReminderMessage

/- ---------------------------------------------------------------- -/
/- Context enrichment (planner.py buildOutletsQueryFromContext and   -/
/- its helpers).                                                     -/
/- ---------------------------------------------------------------- -/

/-- Drop all trailing dots (str.rstrip with a dot). -/
def pyRstripDots (s : String) : String :=
  String.mk ((s.data.reverse.dropWhile (fun c => c == '.')).reverse)

/-- The lowercase marker of _extract_follow_up_question. -/
def followUpMarker : List Char := "follow-up question:".data

/-- Case-insensitive literal match of the marker at the head of the
text; returns the remainder after the marker. -/
def matchMarkerHere : List Char → List Char → Option (List Char)
  | cs, [] => some cs
  | [], _ :: _ => none
  | c :: cs, m :: ms =>
    if Char.toLower c = m then matchMarkerHere cs ms else none

/-- The remainder after the first case-insensitive occurrence of the
follow-up marker, None when the marker does not occur.  Strings here
are single-line, so the greedy (.+) capture of the regex reaches the
end of the remainder. -/
def findMarkerRemainder : List Char → Option (List Char)
  | [] => none
  | c :: cs =>
    match matchMarkerHere (c :: cs) followUpMarker with
    | some rest => some rest
    | none => findMarkerRemainder cs

/-- _extract_follow_up_question. -/
def extractFollowUpQuestion (q : String) : String :=
  if q = "" then ""
  else
    match findMarkerRemainder q.data with
    | some rest =>
      if rest = [] then pyStrip q
      else pyRstripDots (pyStrip (String.mk rest))
    | none => pyStrip q

/-- _get_previous_outlets_question. -/
def getPreviousOutletsQuestion (st : ChatState)
    (lastResult : Option ToolResultPayload) : String :=
  let question := pyStrip (st.metadata.outletsLastRawQuestion.getD "")
  if question ≠ "" then question
  else
    match lastResult with
    | some (ToolResultPayload.outlets q _) =>
      let inferred := extractFollowUpQuestion q
      if inferred ≠ "" then inferred else ""
    | _ => ""

/-- summary[: max_chars - 3].rsplit(" ", 1)[0]: the prefix before the
last space, or the whole prefix when it has no space. -/
def rsplitBeforeLastSpace (cs : List Char) : List Char :=
  let rev := cs.reverse
  let rest := rev.dropWhile (fun c => c ≠ ' ')
  match rest with
  | [] => cs
  | _ :: before => before.reverse

/-- _get_last_assistant_summary with its fixed character budget of
320. -/
def lastAssistantSummary (st : ChatState) : String :=
  if st.messages.length < 2 then ""
  else lastAssistantScan st.messages.dropLast.reverse
where
  lastAssistantScan : List ChatMessage → String
    | [] => ""
    | m :: rest =>
      if m.role = "assistant" then
        let summary := pyStrip m.content
        if summary = "" then ""
        else if summary.length ≤ 320 then summary
        else
          pyStrip (String.mk (rsplitBeforeLastSpace
            (summary.data.take (320 - 3)))) ++ "..."
      else lastAssistantScan rest

/-- The city/name collection loop of buildOutletsQueryFromContext,
with its early break once three cities and three names are
collected. -/
def collectRows : List OutletRow → List String → List String → List String →
    List String × List String
  | [], citySet, _, outletNames => (citySet, outletNames)
  | row :: rest, citySet, citySeen, outletNames =>
    let city := pyStrip (row.city.getD "")
    let name := pyStrip (row.name.getD "")
    let (citySet', citySeen') :=
      if city ≠ "" && !(citySeen.contains (pyLower city)) then
        (citySet ++ [city], citySeen ++ [pyLower city])
      else (citySet, citySeen)
    let outletNames' :=
      if name ≠ "" && !(outletNames.contains name) then outletNames ++ [name]
      else outletNames
    if citySet'.length ≥ 3 && outletNames'.length ≥ 3 then
      (citySet', outletNames')
    else collectRows rest citySet' citySeen' outletNames'

/-- add_sentence of buildOutletsQueryFromContext: label a non-empty
content, terminate it with a dot, and append it unless the identical
sentence is already present. -/
def addSentence (label content : String) (bits : List String) : List String :=
  let text := pyStrip content
  if text = "" then bits
  else
    let sentence0 := label ++ text
    let sentence :=
      if sentence0.data.getLast? = some '.' then sentence0
      else sentence0 ++ "."
    if bits.contains sentence then bits else bits ++ [sentence]

/-- tools.lastResult gated on lastTool == "outlets". -/
def outletsLastResult (st : ChatState) : Option ToolResultPayload :=
  if st.tools.lastTool = some "outlets" then st.tools.lastResult else none

/-- last_result.get("rows") or [] on the gated last result. -/
def outletsResultRows : Option ToolResultPayload → List OutletRow
  | some (ToolResultPayload.outlets _ rs) => rs
  | _ => []

/-- planner.py buildOutletsQueryFromContext. -/
def buildOutletsQueryFromContext (st : ChatState) : String :=
  if st.messages = [] then ""
  else
    let latestQuestion := pyStrip (latestContent st)
    if latestQuestion = "" then ""
    else
      let lastResult := outletsLastResult st
      let previousQuery := getPreviousOutletsQuestion st lastResult
      let rows := outletsResultRows lastResult
      let assistantContext := lastAssistantSummary st
      if previousQuery = "" ∧ rows = [] ∧ assistantContext = "" then
        latestQuestion
      else
        let (citySet, outletNames) := collectRows rows [] [] []
        let bits := addSentence "Previous outlets question: " previousQuery []
        let bits := addSentence "Previous assistant response: " assistantContext bits
        let bits :=
          match outletNames with
          | _ :: _ =>
            addSentence "Previous results mentioned: "
              (joinWith ", " (outletNames.take 3)) bits
          | [] =>
            match citySet with
            | _ :: _ =>
              addSentence "Previous results covered cities: "
                (joinWith ", " (citySet.take 3)) bits
            | [] => bits
        let summary := pyStrip (joinWith " " bits)
        if summary = "" then latestQuestion
        else summary ++ " Follow-up question: " ++ latestQuestion

/- ---------------------------------------------------------------- -/
/- Graph nodes (ChatPlanner._node_*), routing and edges.             -/
/- ---------------------------------------------------------------- -/

/-- Intent(chat_state.intent or Intent.unknown.value); an invalid
stored tag (unreachable, classification always stores a member value)
is mapped to unknown. -/
def currentIntent (st : ChatState) : Intent :=
  (intentFromString (pyOrStr st.intent (intentValue Intent.unknown))).getD
    Intent.unknown

/-- Output of a node that only updates conversation state. -/
structure NodeOut where
  state : ChatState
  budget : PlannerBudget
  events : List PlannerEvent
  backendCalled : Bool
deriving Repr, DecidableEq

/-- ChatPlanner._node_classify_intent. -/
def nodeClassifyIntent (st : ChatState) (b : PlannerBudget)
    (backend : Except String String) : NodeOut :=
  let step := classifyIntentWithLlm b backend
  let intent :=
    match step.result with
    | none => Intent.unknown
    | some i => i
  let st' := { st with intent := some (intentValue intent) }
  { state := st', budget := step.budget,
    events := [PlannerEvent.node_start "classify_intent"] ++ step.events ++
      [PlannerEvent.decision "classify_intent" (intentValue intent),
       PlannerEvent.node_end "classify_intent"],
    backendCalled := step.backendCalled }

/-- ChatPlanner._node_extract_slots. -/
def nodeExtractSlots (st : ChatState) (b : PlannerBudget)
    (backend : Except String SlotState) : NodeOut :=
  let step := extractSlotsWithLlm b backend
  let slots :=
    match step.result with
    | none => ({} : SlotState)
    | some s => s
  let st' := { st with slots := slots }
  { state := st', budget := step.budget,
    events := [PlannerEvent.node_start "extract_slots"] ++ step.events ++
      [PlannerEvent.node_end "extract_slots"],
    backendCalled := step.backendCalled }

/-- Output of _node_decide_action: the runtime decision is returned
beside the state. -/
structure DecideOut where
  state : ChatState
  budget : PlannerBudget
  decision : Decision
  events : List PlannerEvent
  backendCalled : Bool
deriving Repr, DecidableEq

/-- ChatPlanner._node_decide_action, including the generic-query
guardrail and the aggregation-metadata branch. -/
def nodeDecideAction (st : ChatState) (b : PlannerBudget)
    (backend : Except String String) : DecideOut :=
  let intent := currentIntent st
  let step := decideActionWithLlm b backend
  let (decision, st') :=
    match step.result with
    | none => (Decision.ask_follow_up, st)
    | some d =>
      if intent = Intent.products ∧ d = Decision.call_products ∧
          needsProductClarification st.slots.productQuery = true then
        (Decision.ask_follow_up, st)
      else if intent = Intent.products ∧ d = Decision.call_products then
        (d, { st with metadata := { st.metadata with
          productAggregation :=
            some (isProductAggregationQuery (some (latestContent st))) } })
      else (d, st)
  { state := st', budget := step.budget, decision := decision,
    events := [PlannerEvent.node_start "decide_action"] ++ step.events ++
      [PlannerEvent.decision "decide_action" (decisionValue decision),
       PlannerEvent.node_end "decide_action"],
    backendCalled := step.backendCalled }

/-- ChatPlanner._fallback_follow_up_prompt. -/
def fallbackFollowUpPrompt : Intent → String
  | Intent.calc => "I can help calculate it. Could you share the full expression?"
  | Intent.products => "Which drinkware item or style are you looking for?"
  | Intent.outlets => "Which outlet or area should I check?"
  | _ => "Could you clarify what you need help with?"

/-- Output of a node that also records a ToolAction. -/
structure ActionNodeOut where
  state : ChatState
  budget : PlannerBudget
  action : ToolAction
  events : List PlannerEvent
  backendCalled : Bool
deriving Repr, DecidableEq

/-- ChatPlanner._node_ask_follow_up. -/
def nodeAskFollowUp (st : ChatState) (b : PlannerBudget)
    (backend : Except String String) : ActionNodeOut :=
  let intent := currentIntent st
  let step := askFollowUpWithLlm b backend
  let prompt0 := step.result.getD ""
  let prompt1 := if prompt0 = "" then fallbackFollowUpPrompt intent else prompt0
  let (prompt, promptStatus) :=
    if prompt1 = "" then
      ("Could you clarify what you need help with?", ToolStatus.error)
    else (prompt1, ToolStatus.success)
  let st' := { st with
    messages := st.messages ++ [{ role := "assistant", content := prompt }] }
  let action : ToolAction :=
    { type := ToolActionType.decision, tool := none,
      status := some promptStatus, message := some prompt }
  { state := st', budget := step.budget, action := action,
    events := [PlannerEvent.node_start "ask_follow_up"] ++ step.events ++
      [PlannerEvent.node_end "ask_follow_up"],
    backendCalled := step.backendCalled }

/-- Output of a tool node (no budget interaction). -/
structure ToolNodeOut where
  state : ChatState
  action : ToolAction
  events : List PlannerEvent
deriving Repr, DecidableEq

/-- ChatPlanner._node_call_calc; the service outcome carries the
normalized expression with its rendered result, or the CalculatorError
text. -/
def nodeCallCalc (st : ChatState)
    (outcome : Except String (String × String)) : ToolNodeOut :=
  match outcome with
  | Except.ok (expression, resultText) =>
    let tools : ToolState :=
      { lastTool := some "calc",
        lastResult := some (ToolResultPayload.calc expression resultText) }
    let action : ToolAction :=
      { type := ToolActionType.tool_result, tool := some "calc",
        status := some ToolStatus.success,
        message := some ("Calculated `" ++ expression ++ "` successfully.") }
    { state := { st with tools := tools }, action := action,
      events := [PlannerEvent.node_start "call_calc",
        PlannerEvent.node_end "call_calc"] }
  | Except.error msg =>
    let action : ToolAction :=
      { type := ToolActionType.tool_result, tool := some "calc",
        status := some ToolStatus.error, message := some "Calculator failed.",
        dataError := some msg }
    { state := { st with
        error := some { type := "calc_error", message := msg },
        tools := { lastTool := some "calc", lastResult := none } },
      action := action,
      events := [PlannerEvent.node_start "call_calc",
        PlannerEvent.node_end "call_calc"] }

/-- ChatPlanner._node_call_products; the service outcome carries topK
and summary, or the ProductSearchError text. -/
def nodeCallProducts (st : ChatState)
    (outcome : Except String (List ProductHit × Option String)) : ToolNodeOut :=
  match outcome with
  | Except.ok (topK, summary) =>
    let tools : ToolState :=
      { lastTool := some "products",
        lastResult := some (ToolResultPayload.products topK summary) }
    let action : ToolAction :=
      { type := ToolActionType.tool_result, tool := some "products",
        status := some ToolStatus.success,
        message := some ("Retrieved " ++ toString topK.length ++
          " product matches.") }
    { state := { st with tools := tools }, action := action,
      events := [PlannerEvent.node_start "call_products",
        PlannerEvent.node_end "call_products"] }
  | Except.error msg =>
    let action : ToolAction :=
      { type := ToolActionType.tool_result, tool := some "products",
        status := some ToolStatus.error,
        message := some "Product search failed.", dataError := some msg }
    { state := { st with
        error := some { type := "product_error", message := msg },
        tools := { lastTool := some "products", lastResult := none } },
      action := action,
      events := [PlannerEvent.node_start "call_products",
        PlannerEvent.node_end "call_products"] }

/-- Outcome of the outlets capability: a result, or one of its two
typed errors. -/
inductive OutletsOutcome where
  | ok (query : String) (rows : List OutletRow)
  | queryError (msg : String)
  | execError (msg : String)
deriving Repr, DecidableEq

/-- ChatPlanner._node_call_outlets. -/
def nodeCallOutlets (st : ChatState) (outcome : OutletsOutcome) : ToolNodeOut :=
  let rawQuestion := pyStrip (latestContent st)
  let query := buildOutletsQueryFromContext st
  match outcome with
  | OutletsOutcome.ok resultQuery rows =>
    let tools : ToolState :=
      { lastTool := some "outlets",
        lastResult := some (ToolResultPayload.outlets resultQuery rows) }
    let meta : MetaState :=
      { st.metadata with
        outletsLastRawQuestion := some rawQuestion,
        outletsLastEnrichedQuery := some query }
    let action : ToolAction :=
      { type := ToolActionType.tool_result, tool := some "outlets",
        status := some ToolStatus.success,
        message := some ("Fetched " ++ toString rows.length ++ " outlets.") }
    { state := { st with tools := tools, metadata := meta },
      action := action,
      events := [PlannerEvent.node_start "call_outlets",
        PlannerEvent.node_end "call_outlets"] }
  | OutletsOutcome.queryError msg =>
    let action : ToolAction :=
      { type := ToolActionType.tool_result, tool := some "outlets",
        status := some ToolStatus.error,
        message := some "Outlet query rejected.", dataError := some msg }
    { state := { st with
        error := some { type := "outlet_query_error", message := msg },
        tools := { lastTool := some "outlets", lastResult := none } },
      action := action,
      events := [PlannerEvent.node_start "call_outlets",
        PlannerEvent.node_end "call_outlets"] }
  | OutletsOutcome.execError msg =>
    let action : ToolAction :=
      { type := ToolActionType.tool_result, tool := some "outlets",
        status := some ToolStatus.error,
        message := some "Outlet query failed.", dataError := some msg }
    { state := { st with
        error := some { type := "outlet_exec_error", message := msg },
        tools := { lastTool := some "outlets", lastResult := none } },
      action := action,
      events := [PlannerEvent.node_start "call_outlets",
        PlannerEvent.node_end "call_outlets"] }

/-- ChatPlanner._node_respond_smalltalk. -/
def nodeRespondSmalltalk (st : ChatState) : ToolNodeOut :=
  let action : ToolAction :=
    { type := ToolActionType.decision, tool := none,
      status := some ToolStatus.success,
      message := some "Responded with small-talk guidance." }
  { state := st, action := action,
    events := [PlannerEvent.node_start "respond_smalltalk",
      PlannerEvent.node_end "respond_smalltalk"] }

/-- Output of _node_synthesize. -/
structure SynthOut where
  state : ChatState
  budget : PlannerBudget
  response : String
  events : List PlannerEvent
  backendCalled : Bool
deriving Repr, DecidableEq

/-- ChatPlanner._node_synthesize. -/
def nodeSynthesize (st : ChatState) (b : PlannerBudget)
    (backend : Except String SynthesisResult) : SynthOut :=
  let step := synthesizeWithLlm b backend
  let responseText :=
    match step.result with
    | some r =>
      (match r.followUp with
       | some f => if f = "" then r.message else r.message ++ "\n\n" ++ f
       | none => r.message)
    | none => ruleBasedMessage st
  let st' := { st with
    messages := st.messages ++ [{ role := "assistant", content := responseText }] }
  { state := st', budget := step.budget, response := responseText,
    events := [PlannerEvent.node_start "synthesize"] ++ step.events ++
      [PlannerEvent.node_end "synthesize"],
    backendCalled := step.backendCalled }

/-- ChatPlanner._conditional_route: state.get("decision", ...).  The
outer Option models presence of the "decision" key in the runtime
dict, the inner Option a stored Python None; the default applies only
when the key is absent. -/
def conditionalRoute (runtimeDecision : Option (Option String)) : Option String :=
  match runtimeDecision with
  | none => some (decisionValue Decision.respond_smalltalk)
  | some v => v

/-- The static edges of the compiled graph (_build_graph): the node
each node hands control to, None for END. -/
def nextNode : String → Option String
  | "classify_intent" => some "extract_slots"
  | "extract_slots" => some "decide_action"
  | "ask_follow_up" => none
  | "call_calc" => some "synthesize"
  | "call_products" => some "synthesize"
  | "call_outlets" => some "synthesize"
  | "respond_smalltalk" => some "synthesize"
  | "synthesize" => none
  | _ => none

/- ---------------------------------------------------------------- -/
/- Structured Model Invoker cache (agents/llm.py, _BasePlannerLlm).  -/
/- ---------------------------------------------------------------- -/

/-- Cache key: (schema name, prompt id, prompt digest + ":" +
canonical variables payload). -/
abbrev CacheKey := String × String × String

/-- A pydantic result schema over result type R and payload type P:
its class name, model_dump and model_validate (the latter fails with a
ValidationError text on an incompatible payload). -/
structure SchemaModel (R P : Type) where
  name : String
  dump : R → P
  validate : P → Except String R

/-- Python dict lookup on an association list keyed by CacheKey. -/
def dictGet {P : Type} : List (CacheKey × P) → CacheKey → Option P
  | [], _ => none
  | (k, v) :: rest, key => if k = key then some v else dictGet rest key

/-- Python dict item assignment. -/
def dictSet {P : Type} : List (CacheKey × P) → CacheKey → P → List (CacheKey × P)
  | [], key, v => [(key, v)]
  | (k, w) :: rest, key, v =>
    if k = key then (key, v) :: rest else (k, w) :: dictSet rest key v

/-- Python dict.pop with a default: remove the key when present. -/
def dictPop {P : Type} : List (CacheKey × P) → CacheKey → List (CacheKey × P)
  | [], _ => []
  | (k, w) :: rest, key =>
    if k = key then rest else (k, w) :: dictPop rest key

/-- deque.remove wrapped in except ValueError: remove the first
occurrence when present. -/
def removeKey : List CacheKey → CacheKey → List CacheKey
  | [], _ => []
  | k :: rest, key => if k = key then rest else k :: removeKey rest key

/-- The invoker cache: the entry dict (payloads only; the stored
schema field is never read back) and the recency deque with its
maxlen, oldest key first. -/
structure CacheState (P : Type) where
  size : Nat
  cache : List (CacheKey × P) := []
  order : List CacheKey := []

/-- _BasePlannerLlm._touch: move the key to the most-recent end of the
recency deque. -/
def touchOrder (size : Nat) (order : List CacheKey) (key : CacheKey) :
    List CacheKey :=
  dequePush size (removeKey order key) key

/-- _BasePlannerLlm._lookup_cache: a miss leaves the state untouched;
a hit touches the recency of the key and returns the payload for
re-validation. -/
def lookupCache {P : Type} (st : CacheState P) (key : CacheKey) :
    Option P × CacheState P :=
  match dictGet st.cache key with
  | none => (none, st)
  | some p => (some p, { st with order := touchOrder st.size st.order key })

/-- _BasePlannerLlm._store_cache: evict the least-recently-used entry
when inserting a new key into a full cache, then insert and touch.
The popleft on an empty deque (only reachable with size zero) is
modelled as a no-op eviction. -/
def storeCache {P : Type} (st : CacheState P) (key : CacheKey) (payload : P) :
    CacheState P :=
  let (cache1, order1) :=
    if (dictGet st.cache key).isNone ∧ st.size ≤ st.order.length then
      match st.order with
      | [] => (st.cache, st.order)
      | oldest :: restOrder => (dictPop st.cache oldest, restOrder)
    else (st.cache, st.order)
  { st with cache := dictSet cache1 key payload,
            order := touchOrder st.size order1 key }

/-- The cache key built by invoke_structured; the sha256 digest of the
prompt text and the canonical JSON payload of the variables are
supplied as functions (hashlib and json are external collaborators). -/
def cacheKeyOf {R P : Type} (sch : SchemaModel R P) (hashP : String → String)
    (promptId promptText varsPayload : String) : CacheKey :=
  (sch.name, promptId, hashP promptText ++ ":" ++ varsPayload)

/-- Result of one invoke_structured call: the returned value or the
propagated exception, the cache state after the call, and whether
_invoke_model was reached. -/
structure InvokeOut (R P : Type) where
  result : Except String R
  state : CacheState P
  backendCalled : Bool

/-- _BasePlannerLlm.invoke_structured (the async form has identical
semantics): serve a hit from the cache re-validated against the
caller's schema, otherwise delegate to the backend and store the
dumped payload; a backend failure propagates and stores nothing. -/
def invokeStructured {R P : Type} (sch : SchemaModel R P)
    (hashP : String → String) (promptId promptText varsPayload : String)
    (backend : Except String R) (st : CacheState P) : InvokeOut R P :=
  let key := cacheKeyOf sch hashP promptId promptText varsPayload
  match lookupCache st key with
  | (some p, st') =>
    { result := sch.validate p, state := st', backendCalled := false }
  | (none, st') =>
    match backend with
    | Except.error e =>
      { result := Except.error e, state := st', backendCalled := true }
    | Except.ok r =>
      { result := Except.ok r, state := storeCache st' key (sch.dump r),
        backendCalled := true }

/- ---------------------------------------------------------------- -/
/- Theorems.                                                         -/
/- ---------------------------------------------------------------- -/

theorem consumeN_succ_last (n : Nat) (b : PlannerBudget) :
    consumeN (n + 1) b = (consume (consumeN n b)).2 := by
  induction n generalizing b with
  | zero => rfl
  | succ k ih =>
    show consumeN (k + 1) (consume b).2 = _
    rw [ih]
    rfl

theorem budgetAfter_invariant (M : Int) (hM : 0 ≤ M) (n : Nat) :
    (budgetAfter M n).max_calls = M ∧ 0 ≤ (budgetAfter M n).calls_used ∧
      (budgetAfter M n).calls_used ≤ M := by
  induction n with
  | zero => exact ⟨rfl, le_refl 0, hM⟩
  | succ k ih =>
    obtain ⟨hmax, hlo, hhi⟩ := ih
    rw [show budgetAfter M (k + 1) = (consume (budgetAfter M k)).2 from
      consumeN_succ_last k _]
    unfold consume
    split
    · exact ⟨hmax, hlo, hhi⟩
    · next hlt =>
      refine ⟨hmax, ?_, ?_⟩
      · show 0 ≤ (budgetAfter M k).calls_used + 1
        omega
      · show (budgetAfter M k).calls_used + 1 ≤ M
        rw [hmax] at hlt
        omega

theorem drop_append_drop {α : Type} (k j : Nat) (l es : List α)
    (h : k ≤ l.length) :
    ((l.drop k) ++ es).drop j = (l ++ es).drop (k + j) := by
  induction k generalizing l with
  | zero => simp
  | succ m ih =>
    cases l with
    | nil => simp at h
    | cons a rest =>
      simp only [List.drop_succ_cons, List.cons_append]
      rw [ih rest (by simpa using h)]
      rw [show m + 1 + j = (m + j) + 1 by omega, List.drop_succ_cons]

theorem dequePush_length_le {α : Type} (cap : Nat) (l : List α) (e : α) :
    (dequePush cap l e).length ≤ cap := by
  unfold dequePush
  rw [List.length_drop]
  omega

theorem publishAll_suffix {α : Type} (cap : Nat) (backlog es : List α)
    (hb : backlog.length ≤ cap) :
    publishAll cap backlog es =
      (backlog ++ es).drop ((backlog ++ es).length - cap) := by
  induction es generalizing backlog with
  | nil =>
    simp only [publishAll, List.foldl_nil, List.append_nil]
    rw [show backlog.length - cap = 0 by omega]
    simp
  | cons e rest ih =>
    show publishAll cap (dequePush cap backlog e) rest = _
    rw [ih (dequePush cap backlog e) (dequePush_length_le cap backlog e)]
    have hcons : backlog ++ e :: rest = (backlog ++ [e]) ++ rest := by simp
    rw [hcons]
    unfold dequePush
    have hk : (backlog ++ [e]).length - cap ≤ (backlog ++ [e]).length :=
      Nat.sub_le _ _
    rw [drop_append_drop _ _ _ _ hk]
    congr 1
    simp only [List.length_append, List.length_drop, List.length_cons,
      List.length_nil]
    omega

theorem drainN_all {α : Type} (l : List α) : drainN l.length l = l := by
  induction l with
  | nil => rfl
  | cons e rest ih =>
    show e :: drainN rest.length rest = e :: rest
    rw [ih]

theorem budgetRemaining_eq (b : PlannerBudget) :
    budgetRemaining b = max 0 (b.max_calls - b.calls_used) := by
  unfold budgetRemaining
  dsimp only
  split <;> omega

/-- C1: starting from a fresh budget with max_calls = M >= 0, after any
finite sequence of consume() calls calls_used stays at most M, consume()
fails and leaves the budget unchanged exactly when calls_used = M, and
whenever calls_used < M it does return true and does increment
calls_used by exactly one; remaining is always
max 0 (M - calls_used). -/
theorem plannerBudget_spec (M : Int) (hM : 0 ≤ M) (n : Nat) :
    (budgetAfter M n).max_calls = M ∧
    (budgetAfter M n).calls_used ≤ M ∧
    (((consume (budgetAfter M n)).1 = false ∧
        (consume (budgetAfter M n)).2 = budgetAfter M n) ↔
      (budgetAfter M n).calls_used = M) ∧
    ((budgetAfter M n).calls_used < M →
      (consume (budgetAfter M n)).1 = true ∧
      (consume (budgetAfter M n)).2.calls_used
        = (budgetAfter M n).calls_used + 1) ∧
    ((consume (budgetAfter M n)).1 = true →
      (consume (budgetAfter M n)).2.calls_used
        = (budgetAfter M n).calls_used + 1) ∧
    budgetRemaining (budgetAfter M n)
      = max 0 (M - (budgetAfter M n).calls_used) := by
  obtain ⟨hmax, hlo, hhi⟩ := budgetAfter_invariant M hM n
  by_cases hc : (budgetAfter M n).max_calls ≤ (budgetAfter M n).calls_used
  · have hcons : consume (budgetAfter M n) = (false, budgetAfter M n) := by
      unfold consume
      rw [if_pos hc]
    rw [hmax] at hc
    refine ⟨hmax, hhi, ?_, ?_, ?_, ?_⟩
    · rw [hcons]
      constructor
      · intro _
        omega
      · intro _
        exact ⟨rfl, rfl⟩
    · intro h
      exfalso
      omega
    · rw [hcons]
      intro h
      simp at h
    · rw [budgetRemaining_eq, hmax]
  · have hcons : consume (budgetAfter M n) =
        (true, { budgetAfter M n with
          calls_used := (budgetAfter M n).calls_used + 1 }) := by
      unfold consume
      rw [if_neg hc]
    rw [hmax] at hc
    refine ⟨hmax, hhi, ?_, ?_, ?_, ?_⟩
    · rw [hcons]
      constructor
      · intro h
        simp at h
      · intro h
        omega
    · intro _
      rw [hcons]
      exact ⟨rfl, rfl⟩
    · rw [hcons]
      intro _
      rfl
    · rw [budgetRemaining_eq, hmax]

/-- C1 witness: the invariant instantiated at a concrete budget
max_calls = 2 after one consume() call (a non-exhausted state, so the
calls_used < M branch is exercised). -/
theorem plannerBudget_spec_witness :
    (budgetAfter 2 1).max_calls = 2 ∧
    (budgetAfter 2 1).calls_used ≤ 2 ∧
    (((consume (budgetAfter 2 1)).1 = false ∧
        (consume (budgetAfter 2 1)).2 = budgetAfter 2 1) ↔
      (budgetAfter 2 1).calls_used = 2) ∧
    ((budgetAfter 2 1).calls_used < 2 →
      (consume (budgetAfter 2 1)).1 = true ∧
      (consume (budgetAfter 2 1)).2.calls_used
        = (budgetAfter 2 1).calls_used + 1) ∧
    ((consume (budgetAfter 2 1)).1 = true →
      (consume (budgetAfter 2 1)).2.calls_used
        = (budgetAfter 2 1).calls_used + 1) ∧
    budgetRemaining (budgetAfter 2 1)
      = max 0 (2 - (budgetAfter 2 1).calls_used) :=
  plannerBudget_spec 2 (by decide) 1

/-- C4: for a single session with a single consumer, publishing a list
of events into an empty channel leaves exactly the cap most recent
events in the backlog (oldest dropped first), and draining the backlog
with next_event returns those undropped events in strict publish
order. -/
theorem eventBroker_fifo_backlog {α : Type} (cap : Nat) (es : List α) :
    publishAll cap ([] : List α) es = es.drop (es.length - cap) ∧
    drainN (publishAll cap ([] : List α) es).length
        (publishAll cap ([] : List α) es)
      = es.drop (es.length - cap) := by
  have h := publishAll_suffix cap [] es (by simp)
  simp only [List.nil_append] at h
  refine ⟨h, ?_⟩
  rw [drainN_all]
  exact h

theorem consume_exhausted (b : PlannerBudget) (hb : b.max_calls ≤ b.calls_used) :
    consume b = (false, b) := by
  unfold consume
  rw [if_pos hb]

/-- C2: when the budget is exhausted at a model-backed state, no
backend invocation happens, an llm_call event with status skipped and
reason budget_exhausted is published for that node, and the result is
the documented fallback: the intent is set to unknown, the slots reset
to all-absent, the decision defaults to ask_follow_up, the follow-up
prompt falls back to the fixed intent-specific prompt, and synthesis
falls back to the rule-based message. -/
theorem budgetExhausted_fallbacks (st : ChatState) (b : PlannerBudget)
    (hb : b.max_calls ≤ b.calls_used)
    (ib db fb : Except String String) (sb : Except String SlotState)
    (yb : Except String SynthesisResult) :
    ((nodeClassifyIntent st b ib).backendCalled = false ∧
      (nodeClassifyIntent st b ib).state.intent = some "unknown" ∧
      emitLlmCall "classify_intent" INTENT_PROMPT_ID "skipped" b
        (some "budget_exhausted") none ∈ (nodeClassifyIntent st b ib).events) ∧
    ((nodeExtractSlots st b sb).backendCalled = false ∧
      (nodeExtractSlots st b sb).state.slots = {} ∧
      emitLlmCall "extract_slots" SLOT_PROMPT_ID "skipped" b
        (some "budget_exhausted") none ∈ (nodeExtractSlots st b sb).events) ∧
    ((nodeDecideAction st b db).backendCalled = false ∧
      (nodeDecideAction st b db).decision = Decision.ask_follow_up ∧
      emitLlmCall "decide_action" DECISION_PROMPT_ID "skipped" b
        (some "budget_exhausted") none ∈ (nodeDecideAction st b db).events) ∧
    ((nodeAskFollowUp st b fb).backendCalled = false ∧
      (nodeAskFollowUp st b fb).action.message
        = some (fallbackFollowUpPrompt (currentIntent st)) ∧
      (nodeAskFollowUp st b fb).action.status = some ToolStatus.success ∧
      emitLlmCall "ask_follow_up" FOLLOW_UP_PROMPT_ID "skipped" b
        (some "budget_exhausted") none ∈ (nodeAskFollowUp st b fb).events) ∧
    ((nodeSynthesize st b yb).backendCalled = false ∧
      (nodeSynthesize st b yb).response = ruleBasedMessage st ∧
      (nodeSynthesize st b yb).state.messages
        = st.messages ++ [{ role := "assistant",
                            content := ruleBasedMessage st }] ∧
      emitLlmCall "synthesize" SYNTHESIS_PROMPT_ID "skipped" b
        (some "budget_exhausted") none ∈ (nodeSynthesize st b yb).events) := by
  have hc := consume_exhausted b hb
  have hfb : fallbackFollowUpPrompt (currentIntent st) ≠ "" := by
    cases currentIntent st <;> simp [fallbackFollowUpPrompt]
  refine ⟨?_, ?_, ?_, ?_, ?_⟩
  · unfold nodeClassifyIntent classifyIntentWithLlm
    rw [hc]
    simp [intentValue]
  · unfold nodeExtractSlots extractSlotsWithLlm
    rw [hc]
    simp
  · unfold nodeDecideAction decideActionWithLlm
    rw [hc]
    simp
  · unfold nodeAskFollowUp askFollowUpWithLlm
    rw [hc]
    simp [hfb]
  · unfold nodeSynthesize synthesizeWithLlm
    rw [hc]
    simp

/-- C2 witness: the fallback behaviour evaluated on a concrete
exhausted budget and a one-message state. -/
theorem budgetExhausted_fallbacks_witness :
    (({ max_calls := 0, calls_used := 0 } : PlannerBudget).max_calls ≤
      ({ max_calls := 0, calls_used := 0 } : PlannerBudget).calls_used) ∧
    (nodeClassifyIntent
        { sessionId := "s",
          messages := [{ role := "user", content := "hello" }] }
        { max_calls := 0, calls_used := 0 }
        (Except.ok "calc")).state.intent = some "unknown" ∧
    (nodeDecideAction
        { sessionId := "s",
          messages := [{ role := "user", content := "hello" }] }
        { max_calls := 0, calls_used := 0 }
        (Except.ok "call_calc")).decision = Decision.ask_follow_up := by
  refine ⟨by decide, ?_, ?_⟩
  · exact (budgetExhausted_fallbacks
      { sessionId := "s", messages := [{ role := "user", content := "hello" }] }
      { max_calls := 0, calls_used := 0 } (by decide)
      (Except.ok "calc") (Except.ok "call_calc") (Except.ok "q")
      (Except.ok ({} : SlotState))
      (Except.ok { message := "m" })).1.2.1
  · exact (budgetExhausted_fallbacks
      { sessionId := "s", messages := [{ role := "user", content := "hello" }] }
      { max_calls := 0, calls_used := 0 } (by decide)
      (Except.ok "calc") (Except.ok "call_calc") (Except.ok "q")
      (Except.ok ({} : SlotState))
      (Except.ok { message := "m" })).2.2.1.2.1

theorem dictGet_dictSet_self {P : Type} (c : List (CacheKey × P))
    (k : CacheKey) (v : P) : dictGet (dictSet c k v) k = some v := by
  induction c with
  | nil => simp [dictSet, dictGet]
  | cons kv rest ih =>
    obtain ⟨k0, v0⟩ := kv
    by_cases hk : k0 = k
    · simp [dictSet, hk, dictGet]
    · simp [dictSet, hk, dictGet, ih]

theorem storeCache_get_self {P : Type} (st : CacheState P) (key : CacheKey)
    (p : P) : dictGet (storeCache st key p).cache key = some p := by
  unfold storeCache
  exact dictGet_dictSet_self _ key p

theorem dequePush_getLast {α : Type} (size : Nat) (hs : 1 ≤ size)
    (l : List α) (x : α) : (dequePush size l x).getLast? = some x := by
  unfold dequePush
  have h : (l ++ [x]).length - size ≤ l.length := by
    simp only [List.length_append, List.length_cons, List.length_nil]
    omega
  rw [List.drop_append_of_le_length h, List.getLast?_concat]

theorem touchOrder_getLast (size : Nat) (hs : 1 ≤ size)
    (order : List CacheKey) (key : CacheKey) :
    (touchOrder size order key).getLast? = some key := by
  unfold touchOrder
  exact dequePush_getLast size hs _ key

theorem invokeStructured_eq_hit {R P : Type} (sch : SchemaModel R P)
    (hashP : String → String) (promptId promptText varsPayload : String)
    (backend : Except String R) (st : CacheState P) (p : P)
    (h : dictGet st.cache
      (cacheKeyOf sch hashP promptId promptText varsPayload) = some p) :
    invokeStructured sch hashP promptId promptText varsPayload backend st
      = { result := sch.validate p,
          state := { st with
                     order := touchOrder st.size st.order
                       (cacheKeyOf sch hashP promptId promptText varsPayload) },
          backendCalled := false } := by
  simp only [invokeStructured, lookupCache, h]

theorem invokeStructured_eq_miss_ok {R P : Type} (sch : SchemaModel R P)
    (hashP : String → String) (promptId promptText varsPayload : String)
    (r : R) (st : CacheState P)
    (h : dictGet st.cache
      (cacheKeyOf sch hashP promptId promptText varsPayload) = none) :
    invokeStructured sch hashP promptId promptText varsPayload
        (Except.ok r) st
      = { result := Except.ok r,
          state := storeCache st
            (cacheKeyOf sch hashP promptId promptText varsPayload)
            (sch.dump r),
          backendCalled := true } := by
  simp only [invokeStructured, lookupCache, h]

theorem invokeStructured_eq_miss_error {R P : Type} (sch : SchemaModel R P)
    (hashP : String → String) (promptId promptText varsPayload : String)
    (e : String) (st : CacheState P)
    (h : dictGet st.cache
      (cacheKeyOf sch hashP promptId promptText varsPayload) = none) :
    invokeStructured sch hashP promptId promptText varsPayload
        (Except.error e) st
      = { result := Except.error e, state := st, backendCalled := true } := by
  simp only [invokeStructured, lookupCache, h]

/-- C3: two sequential invoke_structured calls with identical
(schema, promptId, promptText, variables) issue at most one backend
call: the second call never reaches the backend, it is served from the
cache as a fresh re-validation of the cached payload with its recency
touched, and both calls return structurally equal results. -/
theorem invoker_cache_idempotent {R P : Type} (sch : SchemaModel R P)
    (hashP : String → String) (promptId promptText varsPayload : String)
    (st : CacheState P) (r : R) (hsize : 1 ≤ st.size)
    (hrt : sch.validate (sch.dump r) = Except.ok r) :
    let key := cacheKeyOf sch hashP promptId promptText varsPayload
    let o1 := invokeStructured sch hashP promptId promptText varsPayload
      (Except.ok r) st
    let o2 := invokeStructured sch hashP promptId promptText varsPayload
      (Except.ok r) o1.state
    o2.backendCalled = false ∧
    o1.result = o2.result ∧
    (∃ p, dictGet o1.state.cache key = some p ∧
      o2.result = sch.validate p) ∧
    o2.state.order.getLast? = some key := by
  dsimp only
  rcases h : dictGet st.cache
      (cacheKeyOf sch hashP promptId promptText varsPayload) with _ | p0
  · have e1 := invokeStructured_eq_miss_ok sch hashP promptId promptText
      varsPayload r st h
    rw [e1]
    have h2 : dictGet (storeCache st
        (cacheKeyOf sch hashP promptId promptText varsPayload)
        (sch.dump r)).cache
        (cacheKeyOf sch hashP promptId promptText varsPayload)
        = some (sch.dump r) :=
      storeCache_get_self st _ _
    have e2 := invokeStructured_eq_hit sch hashP promptId promptText
      varsPayload (Except.ok r) _ _ h2
    rw [e2]
    refine ⟨rfl, ?_, ⟨sch.dump r, h2, rfl⟩, ?_⟩
    · rw [hrt]
    · exact touchOrder_getLast _ hsize _ _
  · have e1 := invokeStructured_eq_hit sch hashP promptId promptText
      varsPayload (Except.ok r) st p0 h
    rw [e1]
    have h2 : dictGet ({ st with
          order := touchOrder st.size st.order
            (cacheKeyOf sch hashP promptId promptText varsPayload) } :
            CacheState P).cache
        (cacheKeyOf sch hashP promptId promptText varsPayload)
        = some p0 := h
    have e2 := invokeStructured_eq_hit sch hashP promptId promptText
      varsPayload (Except.ok r) _ _ h2
    rw [e2]
    exact ⟨rfl, rfl, ⟨p0, h2, rfl⟩, touchOrder_getLast _ hsize _ _⟩

/-- C3 witness: the idempotence evaluated at a concrete schema over
Nat payloads, an empty cache of capacity 64, and backend value 7. -/
theorem invoker_cache_idempotent_witness :
    let sch : SchemaModel Nat Nat :=
      { name := "IntentResult", dump := fun r => r,
        validate := fun p => Except.ok p }
    let st : CacheState Nat := { size := 64 }
    let key := cacheKeyOf sch (fun s => s) "planner.intent.v1" "prompt" "vars"
    let o1 := invokeStructured sch (fun s => s) "planner.intent.v1" "prompt"
      "vars" (Except.ok 7) st
    let o2 := invokeStructured sch (fun s => s) "planner.intent.v1" "prompt"
      "vars" (Except.ok 7) o1.state
    o2.backendCalled = false ∧
    o1.result = o2.result ∧
    (∃ p, dictGet o1.state.cache key = some p ∧
      o2.result = sch.validate p) ∧
    o2.state.order.getLast? = some key :=
  invoker_cache_idempotent
    { name := "IntentResult", dump := fun r => r,
      validate := fun p => Except.ok p }
    (fun s => s) "planner.intent.v1" "prompt" "vars" { size := 64 } 7
    (by decide) rfl

/-- C9: a backend failure propagates out of invoke_structured and is
not cached: the cache state (entries and recency order alike) is
exactly as before the call, and a subsequent identical invocation
reaches the backend afresh instead of returning a cached failure. -/
theorem invoker_failure_not_cached {R P : Type} (sch : SchemaModel R P)
    (hashP : String → String) (promptId promptText varsPayload : String)
    (st : CacheState P) (e : String) (backend2 : Except String R)
    (hmiss : dictGet st.cache
      (cacheKeyOf sch hashP promptId promptText varsPayload) = none) :
    let o := invokeStructured sch hashP promptId promptText varsPayload
      (Except.error e) st
    o.result = Except.error e ∧
    o.backendCalled = true ∧
    o.state = st ∧
    (invokeStructured sch hashP promptId promptText varsPayload
      backend2 o.state).backendCalled = true := by
  dsimp only
  have e1 := invokeStructured_eq_miss_error sch hashP promptId promptText
    varsPayload e st hmiss
  rw [e1]
  refine ⟨rfl, rfl, rfl, ?_⟩
  simp only [invokeStructured, lookupCache, hmiss]
  cases backend2 <;> rfl

/-- C9 witness: the failure path evaluated at a concrete schema, an
empty cache and a concrete error text. -/
theorem invoker_failure_not_cached_witness :
    let sch : SchemaModel Nat Nat :=
      { name := "IntentResult", dump := fun r => r,
        validate := fun p => Except.ok p }
    let st : CacheState Nat := { size := 64 }
    let o := invokeStructured sch (fun s => s) "planner.intent.v1" "prompt"
      "vars" (Except.error "timeout") st
    o.result = Except.error "timeout" ∧
    o.backendCalled = true ∧
    o.state = st ∧
    (invokeStructured sch (fun s => s) "planner.intent.v1" "prompt" "vars"
      (Except.ok 7) o.state).backendCalled = true :=
  invoker_failure_not_cached
    { name := "IntentResult", dump := fun r => r,
      validate := fun p => Except.ok p }
    (fun s => s) "planner.intent.v1" "prompt" "vars" { size := 64 }
    "timeout" (Except.ok 7) rfl

/-- C5: a typed capability failure (CalculatorError,
ProductSearchError, OutletsQueryError, OutletsExecutionError) makes
the tool node record the corresponding typed error on conversation
state, clear lastResult while recording the tool as lastTool, and
append a failure action; the graph edge still leads to synthesize and
the rule-based fallback message mentions the recorded error type and
message (every node of the embedding is a total function, so no
exception escapes the turn). -/
theorem toolError_recorded (st : ChatState) (msg : String) :
    ((nodeCallCalc st (Except.error msg)).state.error
        = some { type := "calc_error", message := msg } ∧
      (nodeCallCalc st (Except.error msg)).state.tools
        = { lastTool := some "calc", lastResult := none } ∧
      (nodeCallCalc st (Except.error msg)).action.status
        = some ToolStatus.error) ∧
    ((nodeCallProducts st (Except.error msg)).state.error
        = some { type := "product_error", message := msg } ∧
      (nodeCallProducts st (Except.error msg)).state.tools
        = { lastTool := some "products", lastResult := none } ∧
      (nodeCallProducts st (Except.error msg)).action.status
        = some ToolStatus.error) ∧
    ((nodeCallOutlets st (OutletsOutcome.queryError msg)).state.error
        = some { type := "outlet_query_error", message := msg } ∧
      (nodeCallOutlets st (OutletsOutcome.queryError msg)).state.tools
        = { lastTool := some "outlets", lastResult := none } ∧
      (nodeCallOutlets st (OutletsOutcome.queryError msg)).action.status
        = some ToolStatus.error) ∧
    ((nodeCallOutlets st (OutletsOutcome.execError msg)).state.error
        = some { type := "outlet_exec_error", message := msg } ∧
      (nodeCallOutlets st (OutletsOutcome.execError msg)).state.tools
        = { lastTool := some "outlets", lastResult := none } ∧
      (nodeCallOutlets st (OutletsOutcome.execError msg)).action.status
        = some ToolStatus.error) ∧
    (nextNode "call_calc" = some "synthesize" ∧
      nextNode "call_products" = some "synthesize" ∧
      nextNode "call_outlets" = some "synthesize") ∧
    (ruleBasedMessage (nodeCallOutlets st (OutletsOutcome.execError msg)).state
        = errorFallbackMessage { type := "outlet_exec_error", message := msg } ∧
      (∃ pre suf,
        ruleBasedMessage (nodeCallOutlets st (OutletsOutcome.execError msg)).state
          = pre ++ "outlet_exec_error" ++ suf) ∧
      (∃ pre suf,
        ruleBasedMessage (nodeCallOutlets st (OutletsOutcome.execError msg)).state
          = pre ++ msg ++ suf)) := by
  refine ⟨⟨rfl, rfl, rfl⟩, ⟨rfl, rfl, rfl⟩, ⟨rfl, rfl, rfl⟩, ⟨rfl, rfl, rfl⟩,
    ⟨rfl, rfl, rfl⟩, rfl, ?_, ?_⟩
  · refine ⟨"I\x27m the ZUS Coffee assistant for calculator checks, " ++
      "drinkware finds, and outlet guidance, but something went wrong (",
      "). " ++ msg ++ " Please try again or clarify your request.", ?_⟩
    show errorFallbackMessage { type := "outlet_exec_error", message := msg } = _
    unfold errorFallbackMessage
    simp only [String.append_assoc]
    rfl
  · refine ⟨"I\x27m the ZUS Coffee assistant for calculator checks, " ++
      "drinkware finds, and outlet guidance, but something went wrong " ++
      "(outlet_exec_error). ",
      " Please try again or clarify your request.", ?_⟩
    show errorFallbackMessage { type := "outlet_exec_error", message := msg } = _
    unfold errorFallbackMessage
    simp only [String.append_assoc]
    rfl

/-- C6 counterexample: a runtime state whose decision key holds the
unrecognized value "bogus" is routed to "bogus", not to
respond_smalltalk, so the router does not default on unrecognized
present values. -/
theorem router_unrecognized_passthrough :
    conditionalRoute (some (some "bogus")) = some "bogus" ∧
    conditionalRoute (some (some "bogus"))
      ≠ some (decisionValue Decision.respond_smalltalk) := by
  constructor
  · rfl
  · decide

/-- C6 amended: the routing function is total (never raises) and
yields respond_smalltalk exactly when the decision key is absent from
the runtime state; any present value, including None or an
unrecognized string, is returned unchanged. -/
theorem router_default_only_when_absent (v : Option String) :
    conditionalRoute none = some (decisionValue Decision.respond_smalltalk) ∧
    conditionalRoute (some v) = v := by
  exact ⟨rfl, rfl⟩

theorem needsClarification_eq_spec (q : String) (hq : productTokens q ≠ []) :
    needsProductClarification (some q) = genericQuerySpec q := by
  have h0 : ¬ q = "" := by
    intro h
    apply hq
    rw [h]
    decide
  have h1 : ¬ normalizeProductQuery q = "" := by
    intro h
    apply hq
    unfold productTokens
    rw [h]
    decide
  have hne : pySplitWs (normalizeProductQuery q) ≠ [] := by
    unfold productTokens at hq
    exact hq
  have hlen0 : ¬ (pySplitWs (normalizeProductQuery q)).length = 0 := by
    intro h
    exact hne (List.length_eq_zero.mp h)
  unfold needsProductClarification genericQuerySpec
  dsimp only
  rw [if_neg h0, if_neg h1]
  by_cases hl1 : (pySplitWs (normalizeProductQuery q)).length = 1
  · simp [hl1]
  · have h2 : 2 ≤ (pySplitWs (normalizeProductQuery q)).length := by omega
    have h2b : decide (2 ≤ (pySplitWs (normalizeProductQuery q)).length) = true :=
      decide_eq_true h2
    simp [hl1, h2b]

theorem nodeDecideAction_products (st : ChatState) (b : PlannerBudget)
    (hintent : st.intent = some "products")
    (hbud : b.calls_used < b.max_calls) :
    (nodeDecideAction st b (Except.ok "call_products")).decision
      = (if needsProductClarification st.slots.productQuery = true
         then Decision.ask_follow_up else Decision.call_products) := by
  have hc : consume b = (true, { b with calls_used := b.calls_used + 1 }) := by
    unfold consume
    rw [if_neg (by omega)]
  have hci : currentIntent st = Intent.products := by
    unfold currentIntent pyOrStr
    rw [hintent]
    decide
  unfold nodeDecideAction decideActionWithLlm
  dsimp only
  rw [hc, hci,
    show decisionFromString "call_products" = some Decision.call_products
      from rfl]
  by_cases hcl : needsProductClarification st.slots.productQuery = true
  · simp [hcl]
  · simp [hcl]

/-- C7 counterexample: the query "???" normalizes to no tokens, so
the documented procedure classifies it as non-generic (every other
shape), yet the code overrides the decision to ask_follow_up; the
override is therefore not exactly characterized by the documented
procedure on token-free queries. -/
theorem productGuardrail_counterexample :
    genericQuerySpec "???" = false ∧
    needsProductClarification (some "???") = true ∧
    (nodeDecideAction
        { sessionId := "s",
          messages := [{ role := "user", content := "???" }],
          intent := some "products",
          slots := { productQuery := some "???" } }
        { max_calls := 4, calls_used := 0 }
        (Except.ok "call_products")).decision
      = Decision.ask_follow_up := by
  refine ⟨by decide, by decide, ?_⟩
  decide

/-- C7: with intent products and a raw model decision of
call_products, the final decision is overridden to ask_follow_up
exactly when the extracted product query is generic under the
documented procedure; _needs_product_clarification agrees with that
procedure on every query whose normalization yields at least one
token, and a generic query never reaches the catalog search. -/
theorem productGuardrail_spec (st : ChatState) (b : PlannerBudget) (q : String)
    (hintent : st.intent = some "products")
    (hslot : st.slots.productQuery = some q)
    (hbud : b.calls_used < b.max_calls)
    (hq : productTokens q ≠ []) :
    needsProductClarification (some q) = genericQuerySpec q ∧
    ((nodeDecideAction st b (Except.ok "call_products")).decision
        = Decision.ask_follow_up ↔ genericQuerySpec q = true) ∧
    (genericQuerySpec q = true →
      (nodeDecideAction st b (Except.ok "call_products")).decision
        ≠ Decision.call_products) := by
  have heq := needsClarification_eq_spec q hq
  have hnode := nodeDecideAction_products st b hintent hbud
  rw [hslot, heq] at hnode
  refine ⟨heq, ?_, ?_⟩
  · rw [hnode]
    by_cases hg : genericQuerySpec q = true
    · simp [hg]
    · simp [hg]
  · intro hg
    rw [hnode, if_pos hg]
    decide

/-- C7 witness: the guardrail evaluated on the generic two-token query
"show products" with a fresh budget. -/
theorem productGuardrail_spec_witness :
    needsProductClarification (some "show products")
      = genericQuerySpec "show products" ∧
    ((nodeDecideAction
        { sessionId := "s",
          messages := [{ role := "user", content := "Tell me about products" }],
          intent := some "products",
          slots := { productQuery := some "show products" } }
        { max_calls := 4, calls_used := 0 }
        (Except.ok "call_products")).decision
        = Decision.ask_follow_up ↔ genericQuerySpec "show products" = true) ∧
    (genericQuerySpec "show products" = true →
      (nodeDecideAction
        { sessionId := "s",
          messages := [{ role := "user", content := "Tell me about products" }],
          intent := some "products",
          slots := { productQuery := some "show products" } }
        { max_calls := 4, calls_used := 0 }
        (Except.ok "call_products")).decision
        ≠ Decision.call_products) :=
  productGuardrail_spec
    { sessionId := "s",
      messages := [{ role := "user", content := "Tell me about products" }],
      intent := some "products",
      slots := { productQuery := some "show products" } }
    { max_calls := 4, calls_used := 0 } "show products" rfl rfl
    (by decide) (by decide)

/-- C10: an absent, empty, or alphanumeric-free product query always
needs clarification, so with intent products and a raw call_products
decision the final decision is ask_follow_up and no product search is
issued. -/
theorem emptyQuery_clarification (q : Option String) (st : ChatState)
    (b : PlannerBudget)
    (hq : q = none ∨ ∃ s, q = some s ∧ normalizeProductQuery s = "")
    (hintent : st.intent = some "products")
    (hslot : st.slots.productQuery = q)
    (hbud : b.calls_used < b.max_calls) :
    needsProductClarification q = true ∧
    (nodeDecideAction st b (Except.ok "call_products")).decision
      = Decision.ask_follow_up := by
  have hcl : needsProductClarification q = true := by
    rcases hq with h | ⟨sq, hs, hnorm⟩
    · rw [h]
      rfl
    · rw [hs]
      unfold needsProductClarification
      dsimp only
      by_cases hse : sq = ""
      · rw [if_pos hse]
      · rw [if_neg hse]
        rw [if_pos hnorm]
  have hnode := nodeDecideAction_products st b hintent hbud
  rw [hslot, hcl] at hnode
  refine ⟨hcl, ?_⟩
  rw [hnode]
  simp

/-- C10 witness: a query with no alphanumeric characters evaluated on
a concrete products state. -/
theorem emptyQuery_clarification_witness :
    needsProductClarification (some "???") = true ∧
    (nodeDecideAction
        { sessionId := "s",
          messages := [{ role := "user", content := "???" }],
          intent := some "products",
          slots := { productQuery := some "???" } }
        { max_calls := 4, calls_used := 0 }
        (Except.ok "call_products")).decision
      = Decision.ask_follow_up :=
  emptyQuery_clarification (some "???")
    { sessionId := "s",
      messages := [{ role := "user", content := "???" }],
      intent := some "products",
      slots := { productQuery := some "???" } }
    { max_calls := 4, calls_used := 0 }
    (Or.inr ⟨"???", rfl, by decide⟩) rfl rfl (by decide)

/-- C8 counterexample: on a state with no usable prior outlets
context whose latest user message carries surrounding whitespace,
buildOutletsQueryFromContext returns the stripped text, not the
message unchanged. -/
theorem contextEnrichment_not_identity :
    getPreviousOutletsQuestion
        { sessionId := "s",
          messages := [{ role := "user", content := " hello " }] }
        (outletsLastResult
          { sessionId := "s",
            messages := [{ role := "user", content := " hello " }] }) = "" ∧
    outletsResultRows (outletsLastResult
        { sessionId := "s",
          messages := [{ role := "user", content := " hello " }] }) = [] ∧
    lastAssistantSummary
        { sessionId := "s",
          messages := [{ role := "user", content := " hello " }] } = "" ∧
    buildOutletsQueryFromContext
        { sessionId := "s",
          messages := [{ role := "user", content := " hello " }] }
      = "hello" ∧
    latestContent
        { sessionId := "s",
          messages := [{ role := "user", content := " hello " }] }
      = " hello " ∧
    ("hello" : String) ≠ " hello " := by
  refine ⟨rfl, rfl, rfl, ?_, rfl, by decide⟩
  decide

/-- C8 amended: with no previous raw outlets question, no prior
result rows and no prior assistant reply, buildOutletsQueryFromContext
returns the whitespace-stripped latest user message; it is the
identity on the message exactly when the content has no surrounding
whitespace. -/
theorem contextEnrichment_identity_on_trimmed (st : ChatState)
    (hmsg : st.messages ≠ [])
    (hprev : getPreviousOutletsQuestion st (outletsLastResult st) = "")
    (hrows : outletsResultRows (outletsLastResult st) = [])
    (hassist : lastAssistantSummary st = "") :
    buildOutletsQueryFromContext st = pyStrip (latestContent st) ∧
    (pyStrip (latestContent st) = latestContent st →
      buildOutletsQueryFromContext st = latestContent st) := by
  have hb : buildOutletsQueryFromContext st = pyStrip (latestContent st) := by
    unfold buildOutletsQueryFromContext
    rw [if_neg hmsg]
    dsimp only
    by_cases hl : pyStrip (latestContent st) = ""
    · rw [if_pos hl, hl]
    · rw [if_neg hl, if_pos ⟨hprev, hrows, hassist⟩]
  refine ⟨hb, fun hid => ?_⟩
  rw [hb, hid]

/-- C8 witness for the amended claim: a one-message state with an
already-trimmed latest message. -/
theorem contextEnrichment_identity_witness :
    buildOutletsQueryFromContext
        { sessionId := "s",
          messages := [{ role := "user", content := "any outlets nearby?" }] }
      = pyStrip (latestContent
        { sessionId := "s",
          messages := [{ role := "user", content := "any outlets nearby?" }] }) ∧
    (pyStrip (latestContent
        { sessionId := "s",
          messages := [{ role := "user", content := "any outlets nearby?" }] })
      = latestContent
        { sessionId := "s",
          messages := [{ role := "user", content := "any outlets nearby?" }] } →
      buildOutletsQueryFromContext
        { sessionId := "s",
          messages := [{ role := "user", content := "any outlets nearby?" }] }
        = latestContent
        { sessionId := "s",
          messages := [{ role := "user", content := "any outlets nearby?" }] }) :=
  contextEnrichment_identity_on_trimmed
    { sessionId := "s",
      messages := [{ role := "user", content := "any outlets nearby?" }] }
    (by decide) rfl rfl rfl

end RagChatbot
